import Mathlib

/-!
A shallow embedding of the order-tracking app in src/app.py (SQLite-backed
streamlit script).  The persistent store holds two tables, `menu` and
`orders`; every business function of the script is translated into a pure
Lean function over an explicit `Store` value.

Modelling conventions:
  - SQLite INTEGER ids become `Nat`; the AUTOINCREMENT sequence of each
    table is an explicit counter in the store.
  - SQLite REAL prices become `Rat` (exact decimals; the claims under study
    are structural, not about float rounding).  The orders.price column has
    no NOT NULL constraint and the display code checks `price is None`, so
    an order row price is `Option Rat`; `add_order` always writes `some _`.
  - TEXT columns become `String` (SQLite default BINARY collation is exact
    byte comparison, matching Lean String equality).
  - Python datetime timestamps become a `Nat` tick passed in by the caller
    (the script calls `datetime.now()`); ORDER BY created_at DESC becomes
    an insertion sort, descending on that tick.
  - Python optional arguments keep Python truthiness: `if table_id:` is
    false for None and for 0, so the filter argument is `Option Nat` and
    `some 0` applies no filter; `if status:` is false for None, for the
    empty string and for the empty list.
  - Functions whose Python body ends without `return` yield the Python
    value None; where a claim talks about a returned count the return
    channel is modelled as `Option Nat`, and such functions yield `none`.
-/

/-- One row of the `menu` table: id PK, name UNIQUE NOT NULL, price NOT NULL. -/
structure MenuItem where
  id : Nat
  name : String
  price : Rat
deriving DecidableEq

/-- One row of the `orders` table. -/
structure Order where
  id : Nat
  table_id : Nat
  section_id : Nat
  item : String
  qty : Int
  status : String
  created_at : Nat
  price : Option Rat
  is_parcel : Bool
deriving DecidableEq

/-- The persistent store: the two tables plus the AUTOINCREMENT sequences. -/
structure Store where
  menu : List MenuItem
  orders : List Order
  order_seq : Nat
  menu_seq : Nat
deriving DecidableEq

/-- A fresh database, as created by the CREATE TABLE statements. -/
def emptyStore : Store := ⟨[], [], 1, 1⟩

/-- The query `SELECT price FROM menu WHERE name=?` followed by
`price = result[0] if result else 0` in add_order. -/
def menu_price_of (menu : List MenuItem) (name : String) : Rat :=
  match menu.find? (fun m => m.name == name) with
  | some m => m.price
  | none => 0

/-- Function `add_order(table_id, section_id, item, qty=1, is_parcel=False)`:
snapshots the current menu price (0 when the name is unknown), sets
status "Preparing" and the current timestamp, and inserts the row. -/
def add_order (s : Store) (table_id section_id : Nat) (item : String)
    (qty : Int) (is_parcel : Bool) (now : Nat) : Store :=
  { s with
    orders := s.orders ++
      [⟨s.order_seq, table_id, section_id, item, qty, "Preparing", now,
        some (menu_price_of s.menu item), is_parcel⟩]
    order_seq := s.order_seq + 1 }

/-- The status argument of get_orders: Python None, a single value, or a list. -/
inductive StatusFilter where
  | noFilter
  | single (s : String)
  | ofList (l : List String)
deriving DecidableEq

/-- The WHERE clause contributed by the status argument.  Python truthiness:
`if status:` is false for None, for the empty string and for the empty list,
so in those three cases no condition is added; in particular the
`AND 1=0` branch the code keeps for an empty list is dead code. -/
def statusCond (arg : StatusFilter) (st : String) : Bool :=
  match arg with
  | .noFilter => true
  | .single q => if q == "" then true else st == q
  | .ofList l => if l.isEmpty then true else l.contains st

/-- The WHERE clause contributed by the items argument: `if items:` is false
for None and for the empty list, otherwise `item IN (...)`. -/
def itemsCond (arg : Option (List String)) (it : String) : Bool :=
  match arg with
  | none => true
  | some l => if l.isEmpty then true else l.contains it

/-- The WHERE clause contributed by table_id or section_id: `if table_id:`
is false for None and for 0, otherwise `table_id=?`. -/
def idCond (arg : Option Nat) (v : Nat) : Bool :=
  match arg with
  | none => true
  | some n => if n == 0 then true else v == n

/-- Insert an order in front of the first row with an older-or-equal
timestamp (ORDER BY created_at DESC). -/
def insertDesc (o : Order) : List Order → List Order
  | [] => [o]
  | x :: xs => if x.created_at ≤ o.created_at then o :: x :: xs
               else x :: insertDesc o xs

/-- ORDER BY created_at DESC. -/
def sortDesc : List Order → List Order
  | [] => []
  | x :: xs => insertDesc x (sortDesc xs)

/-- Function `get_orders(table_id, section_id, status, items)`:
conjunction of the optional filters, then ORDER BY created_at DESC. -/
def get_orders (s : Store) (table_id section_id : Option Nat)
    (status : StatusFilter) (items : Option (List String)) : List Order :=
  sortDesc (s.orders.filter (fun o =>
    idCond table_id o.table_id && idCond section_id o.section_id &&
    statusCond status o.status && itemsCond items o.item))

/-- Function get_new_section_id: `SELECT MAX(section_id) FROM orders
WHERE table_id=?`, then
`(max_id or 0) + 1`: MAX of no rows is NULL, and `None or 0` is 0. -/
def get_new_section_id (s : Store) (table_id : Nat) : Nat :=
  (((s.orders.filter (fun o => o.table_id == table_id)).map
      (fun o => o.section_id)).foldr max 0) + 1

/-- Function `update_qty(order_id, change)`: fetch the row; if absent do
nothing;
otherwise compute `qty = row[0] + change`, deleting the row when the
result is ≤ 0 and updating it in place otherwise (the Python local `qty`
is inlined here). -/
def update_qty (s : Store) (order_id : Nat) (change : Int) : Store :=
  match s.orders.find? (fun o => o.id == order_id) with
  | none => s
  | some row =>
    if row.qty + change ≤ 0 then
      { s with orders := s.orders.filter (fun o => !(o.id == order_id)) }
    else
      { s with orders := s.orders.map (fun o =>
          if o.id == order_id then { o with qty := row.qty + change }
          else o) }

/-- Function `update_status(order_id, status)`: unconditional
`UPDATE orders SET status=? WHERE id=?`. -/
def update_status (s : Store) (order_id : Nat) (status : String) : Store :=
  { s with orders := s.orders.map (fun o =>
      if o.id == order_id then { o with status := status } else o) }

/-- Function `delete_order(order_id)`: `DELETE FROM orders WHERE id=?`. -/
def delete_order (s : Store) (order_id : Nat) : Store :=
  { s with orders := s.orders.filter (fun o => !(o.id == order_id)) }

/-- Function `delete_section(table_id, section_id)`:
`DELETE FROM orders WHERE table_id=? AND section_id=?`.  The Python
function has no return statement, so its value is None; the second
component is the returned value on the `Option Nat` channel a row count
would use. -/
def delete_section (s : Store) (table_id section_id : Nat) :
    Store × Option Nat :=
  ({ s with orders := s.orders.filter (fun o =>
      !(o.table_id == table_id && o.section_id == section_id)) },
   none)

/-- Function `toggle_parcel_status(order_id)`:
`UPDATE orders SET is_parcel = NOT is_parcel WHERE id=?`. -/
def toggle_parcel_status (s : Store) (order_id : Nat) : Store :=
  { s with orders := s.orders.map (fun o =>
      if o.id == order_id then { o with is_parcel := !o.is_parcel } else o) }

/-- Function `add_menu_item(name, price)`: INSERT INTO menu; the UNIQUE
constraint
on name raises IntegrityError when the exact name is present, in which
case the function reports failure and the store is unchanged. -/
def add_menu_item (s : Store) (name : String) (price : Rat) :
    Store × Bool :=
  if s.menu.any (fun m => m.name == name) then (s, false)
  else
    ({ s with
        menu := s.menu ++ [⟨s.menu_seq, name, price⟩]
        menu_seq := s.menu_seq + 1 }, true)

/-- Function `update_menu_item(item_id, name, price)`:
`UPDATE menu SET name=?, price=? WHERE id=?`; the write raises
IntegrityError when the targeted row exists and a different row already
holds the new name; an id matching no row updates nothing and succeeds. -/
def update_menu_item (s : Store) (item_id : Nat) (name : String)
    (price : Rat) : Store × Bool :=
  if s.menu.any (fun m => m.id == item_id) &&
     s.menu.any (fun m => m.name == name && !(m.id == item_id)) then
    (s, false)
  else
    ({ s with menu := s.menu.map (fun m =>
        if m.id == item_id then { m with name := name, price := price }
        else m) }, true)

/-- Function `delete_menu_item(item_id)`: `DELETE FROM menu WHERE id=?`. -/
def delete_menu_item (s : Store) (item_id : Nat) : Store :=
  { s with menu := s.menu.filter (fun m => !(m.id == item_id)) }

/-- The hardcoded seed item names of the one-time migration block. -/
def MIGRATION_MENU_ITEMS : List String :=
  ["Porotta", "Dosa", "Idly", "Chaya", "Lime",
   "Chicken Curry", "Beef Fry", "Vada", "Chappathi"]

/-- The hardcoded seed prices, with the dict .get(item, 0) default. -/
def MIGRATION_MENU_PRICES (name : String) : Rat :=
  if name == "Porotta" then 12 else if name == "Dosa" then 40
  else if name == "Idly" then 30 else if name == "Chaya" then 10
  else if name == "Lime" then 20 else if name == "Chicken Curry" then 150
  else if name == "Beef Fry" then 180 else if name == "Vada" then 10
  else if name == "Chappathi" then 15 else 0

/-- The statement `INSERT OR IGNORE INTO menu (name, price) VALUES (?, ?)`. -/
def insertOrIgnore (s : Store) (name : String) (price : Rat) : Store :=
  if s.menu.any (fun m => m.name == name) then s
  else
    { s with
      menu := s.menu ++ [⟨s.menu_seq, name, price⟩]
      menu_seq := s.menu_seq + 1 }

/-- The startup migration block: `SELECT COUNT(*) FROM menu`; when the
count is 0, insert every non-empty seed name with its price. -/
def migrate (s : Store) : Store :=
  if s.menu.isEmpty then
    MIGRATION_MENU_ITEMS.foldl (fun acc item =>
      if !(item == "") then
        insertOrIgnore acc item (MIGRATION_MENU_PRICES item)
      else acc) s
  else s

/-- Orders of one table, as the Waiter view fetches them:
`get_orders(table_id=selected_table)` with the other filters absent. -/
def tableOrders (s : Store) (t : Nat) : List Order :=
  get_orders s (some t) none StatusFilter.noFilter none

/-- Insertion sort ascending on Nat, for `sorted(sections.items())`. -/
def insertAsc (n : Nat) : List Nat → List Nat
  | [] => [n]
  | x :: xs => if n ≤ x then n :: x :: xs else x :: insertAsc n xs

/-- Sort a list of section ids ascending. -/
def sortAsc : List Nat → List Nat
  | [] => []
  | x :: xs => insertAsc x (sortAsc xs)

/-- The section ids under which the Waiter view groups the orders of a table
(`defaultdict` keyed by order[2], iterated as `sorted(sections.items())`). -/
def sectionIdsOfTable (s : Store) (t : Nat) : List Nat :=
  sortAsc (((tableOrders s t).map (fun o => o.section_id)).dedup)

/-- The rows the Waiter view lists under one section of a table. -/
def sectionRows (s : Store) (t sec : Nat) : List Order :=
  (tableOrders s t).filter (fun o => o.section_id == sec)

/-- The value `section_total_sum = sum(order[7] * order[4] for order in orders if
order[7] is not None)`: the per-section sum inside the grand total loop,
skipping rows whose price is NULL. -/
def section_total_sum (s : Store) (t sec : Nat) : Rat :=
  ((sectionRows s t sec).filter (fun o => o.price.isSome)).foldl
    (fun acc o => acc + o.price.getD 0 * o.qty) 0

/-- The value `grand_total`: the sum of `section_total_sum` over the
table sections. -/
def grand_total (s : Store) (t : Nat) : Rat :=
  (sectionIdsOfTable s t).foldl
    (fun acc sec => acc + section_total_sum s t sec) 0

/-- The price the Waiter view shows for a line: the stored snapshot, or,
when the column is NULL, the live menu price of the item
(`if price is None: price = menu_prices_dict.get(item, 0)`). -/
def display_price (s : Store) (o : Order) : Rat :=
  match o.price with
  | some p => p
  | none => menu_price_of s.menu o.item

/-- The value `section_total_display`: the per-line accumulation in the section
expander, `total_price = qty * price` summed over the lines. -/
def section_total_display (s : Store) (t sec : Nat) : Rat :=
  (sectionRows s t sec).foldl
    (fun acc o => acc + o.qty * display_price s o) 0

/-- The invariant of C1: every row present in the store has quantity at
least 1. -/
abbrev QtyInv (s : Store) : Prop := ∀ o ∈ s.orders, 1 ≤ o.qty

/-- Every order row carries a stored (non-NULL) price snapshot.
add_order always writes one, so every store reachable through the API
satisfies this; a NULL price can only come from a legacy database. -/
abbrev PriceSet (s : Store) : Prop := ∀ o ∈ s.orders, o.price ≠ none

/-! ### Concrete stores used by witnesses and counterexamples -/

/-- A single order row priced 40. -/
def c3Order : Order := ⟨1, 1, 1, "Dosa", 2, "Preparing", 0, some 40, false⟩

/-- A store holding one menu item and one order row. -/
def c3Store : Store := ⟨[⟨1, "Dosa", 40⟩], [c3Order], 2, 2⟩

/-- The store for the C9 witness: a single row already marked Served. -/
def c9Store : Store :=
  ⟨[], [⟨1, 2, 1, "Dosa", 1, "Served", 5, some 40, false⟩], 2, 1⟩

/-- The catalog after a successful insertion of Dosa at price 40. -/
def dosaStore : Store := (add_menu_item emptyStore "Dosa" 40).1

/-- A table-2 store with section ids 1 and 3. -/
def c8Store : Store :=
  ⟨[], [⟨1, 2, 1, "Dosa", 1, "Preparing", 0, some 40, false⟩,
        ⟨2, 2, 3, "Idly", 1, "Preparing", 1, some 30, false⟩], 3, 1⟩

/-- A store with a single row of quantity 3, for the C1 witness. -/
def w1Store : Store :=
  ⟨[], [⟨1, 1, 1, "Dosa", 3, "Preparing", 0, some 40, false⟩], 2, 1⟩

/-- A store with one row at table 1, section 1. -/
def c6Store : Store :=
  ⟨[], [⟨1, 1, 1, "Dosa", 2, "Preparing", 0, some 40, false⟩], 2, 1⟩

/-- A store with one row at table 2, section 1. -/
def c6bStore : Store :=
  ⟨[], [⟨1, 2, 1, "Dosa", 2, "Preparing", 0, some 40, false⟩], 2, 1⟩

/-- The catalog right after the first startup of a fresh database. -/
def c5Seeded : Store := migrate emptyStore

/-- The same catalog after the administrator deletes all nine items. -/
def c5Deleted : Store :=
  [1, 2, 3, 4, 5, 6, 7, 8, 9].foldl (fun acc i => delete_menu_item acc i)
    c5Seeded

/-- The split-bill scenario of the spec: table 3, section 1 holds 2 Dosa
at 40 and 1 Chaya at 10, section 2 holds 1 Idly at 30. -/
def c4Store : Store :=
  ⟨[⟨1, "Dosa", 40⟩, ⟨2, "Chaya", 10⟩],
   [⟨1, 3, 1, "Dosa", 2, "Preparing", 0, some 40, false⟩,
    ⟨2, 3, 1, "Chaya", 1, "Preparing", 1, some 10, false⟩,
    ⟨3, 3, 2, "Idly", 1, "Preparing", 2, some 30, false⟩], 4, 3⟩

/-! ### Helper lemmas about the sorting and folding combinators -/

theorem insertDesc_perm (o : Order) (l : List Order) :
    List.Perm (insertDesc o l) (o :: l) := by
  induction l with
  | nil => exact List.Perm.refl _
  | cons x xs ih =>
    unfold insertDesc
    split
    · exact List.Perm.refl _
    · exact (List.Perm.cons x ih).trans (List.Perm.swap o x xs)

theorem sortDesc_perm (l : List Order) : List.Perm (sortDesc l) l := by
  induction l with
  | nil => exact List.Perm.refl _
  | cons x xs ih =>
    exact (insertDesc_perm x (sortDesc xs)).trans (List.Perm.cons x ih)

theorem mem_sortDesc {o : Order} {l : List Order} :
    o ∈ sortDesc l ↔ o ∈ l :=
  (sortDesc_perm l).mem_iff

theorem foldl_add_map {α : Type} (f : α → Rat) (l : List α) (c : Rat) :
    l.foldl (fun acc o => acc + f o) c = c + (l.map f).sum := by
  induction l generalizing c with
  | nil => simp
  | cons x xs ih => simp [ih, add_assoc]

theorem le_foldr_max {l : List Nat} {x : Nat} (hx : x ∈ l) :
    x ≤ l.foldr max 0 := by
  induction l with
  | nil => cases hx
  | cons a as ih =>
    rcases List.mem_cons.mp hx with h | h
    · subst h; exact le_max_left _ _
    · exact le_trans (ih h) (le_max_right _ _)

theorem foldr_max_mem {l : List Nat} (h : l ≠ []) : l.foldr max 0 ∈ l := by
  induction l with
  | nil => exact absurd rfl h
  | cons a as ih =>
    cases as with
    | nil => simp
    | cons b bs =>
      rw [List.foldr_cons]
      rcases max_choice a ((b :: bs).foldr max 0) with hm | hm
      · rw [hm]; exact List.mem_cons_self _ _
      · rw [hm]; exact List.mem_cons_of_mem _ (ih (by simp))

theorem idCond_self (n : Nat) : idCond (some n) n = true := by
  simp [idCond]

/-! ### Claims -/

/-- C10: get_orders treats table_id=0 (and section_id=0) exactly like an
absent filter: Python `if table_id:` is false for 0, so passing 0 adds no
WHERE condition and the result equals the query with that argument
omitted. -/
theorem C10_zero_id_is_no_filter (s : Store) (t sec : Option Nat)
    (st : StatusFilter) (its : Option (List String)) :
    get_orders s (some 0) sec st its = get_orders s none sec st its
    ∧ get_orders s t (some 0) st its = get_orders s t none st its :=
  ⟨rfl, rfl⟩

/-- C3: contrary to the claim, an explicitly empty list filter is NOT
distinguished from an absent filter: Python `if status:` is false for the
empty list, so the branch that would append `AND 1=0` is dead code and
get_orders with status=[] (and likewise items=[]) returns every order,
exactly as with the filter omitted. -/
theorem C3_empty_list_behaves_as_no_filter :
    (∀ s t sec its, get_orders s t sec (StatusFilter.ofList []) its
        = get_orders s t sec StatusFilter.noFilter its)
    ∧ (∀ s t sec st, get_orders s t sec st (some [])
        = get_orders s t sec st none)
    ∧ get_orders c3Store none none (StatusFilter.ofList []) none = [c3Order]
    ∧ get_orders c3Store none none StatusFilter.noFilter none = [c3Order] :=
  ⟨fun _ _ _ _ => rfl, fun _ _ _ _ => rfl, by decide, by decide⟩

/-- C9: set_status overwrites the status of the targeted row
unconditionally (any target value, including a backward transition such
as Served to Preparing), keeps every other field of that row, leaves
every other row unchanged, and does not touch the menu. -/
theorem C9_update_status_frame (s : Store) (oid : Nat) (st : String)
    (r : Order) (hr : r ∈ s.orders) (hid : r.id = oid) :
    ({ r with status := st } ∈ (update_status s oid st).orders)
    ∧ (∀ o ∈ s.orders, o.id ≠ oid → o ∈ (update_status s oid st).orders)
    ∧ (update_status s oid st).orders
        = s.orders.map (fun o =>
            if o.id == oid then { o with status := st } else o)
    ∧ (update_status s oid st).menu = s.menu := by
  refine ⟨?_, ?_, rfl, rfl⟩
  · have h : (fun o => if o.id == oid then { o with status := st } else o) r
        = { r with status := st } := by
      simp [hid]
    exact h ▸ List.mem_map_of_mem _ hr
  · intro o ho hne
    have h : (fun o => if o.id == oid then { o with status := st } else o) o
        = o := by
      simp [hne]
    exact h ▸ List.mem_map_of_mem _ ho

/-- C9 witness: overwriting a Served row back to Preparing. -/
theorem C9_witness :
    (⟨1, 2, 1, "Dosa", 1, "Preparing", 5, some 40, false⟩ : Order)
      ∈ (update_status c9Store 1 "Preparing").orders :=
  (C9_update_status_frame c9Store 1 "Preparing"
    ⟨1, 2, 1, "Dosa", 1, "Served", 5, some 40, false⟩ (by decide) rfl).1

/-- C7: add_menu_item fails on an exact (case-sensitive) duplicate name
and leaves the catalog unchanged; on a fresh name it appends the new
item. -/
theorem C7_add_menu_item_duplicate (s : Store) (name : String)
    (price : Rat) :
    (s.menu.any (fun m => m.name == name) = true →
        add_menu_item s name price = (s, false))
    ∧ (s.menu.any (fun m => m.name == name) = false →
        (add_menu_item s name price).2 = true
        ∧ (add_menu_item s name price).1.menu
            = s.menu ++ [⟨s.menu_seq, name, price⟩]
        ∧ (add_menu_item s name price).1.orders = s.orders) := by
  constructor
  · intro h
    unfold add_menu_item
    rw [if_pos h]
  · intro h
    unfold add_menu_item
    rw [if_neg (by simp [h])]
    exact ⟨rfl, rfl, rfl⟩

/-- C7 witness: after adding Dosa at 40, a second add of Dosa at 50 fails
and the catalog still holds exactly one Dosa entry, priced 40. -/
theorem C7_witness :
    add_menu_item dosaStore "Dosa" 50 = (dosaStore, false)
    ∧ (dosaStore.menu.filter (fun m => m.name == "Dosa")).map
        (fun m => m.price) = [40] :=
  ⟨(C7_add_menu_item_duplicate dosaStore "Dosa" 50).1 (by decide), by decide⟩

/-- C2: the row created by add_order carries the menu price at the moment
of insertion (0 when the name is not in the catalog); later menu updates
and deletions leave the orders table untouched, and the row is still
returned by get_orders for its table and section with the original
snapshot price. -/
theorem C2_price_snapshot (s : Store) (t sec : Nat) (item : String)
    (q : Int) (pcl : Bool) (now i : Nat) (n : String) (p : Rat) :
    ((⟨s.order_seq, t, sec, item, q, "Preparing", now,
        some (menu_price_of s.menu item), pcl⟩ : Order)
      ∈ (add_order s t sec item q pcl now).orders)
    ∧ (∀ s2 : Store, (update_menu_item s2 i n p).1.orders = s2.orders)
    ∧ (∀ s2 : Store, (delete_menu_item s2 i).orders = s2.orders)
    ∧ ((⟨s.order_seq, t, sec, item, q, "Preparing", now,
        some (menu_price_of s.menu item), pcl⟩ : Order)
      ∈ get_orders
          (update_menu_item (add_order s t sec item q pcl now) i n p).1
          (some t) (some sec) StatusFilter.noFilter none) := by
  have hmem : (⟨s.order_seq, t, sec, item, q, "Preparing", now,
      some (menu_price_of s.menu item), pcl⟩ : Order)
      ∈ (add_order s t sec item q pcl now).orders := by
    unfold add_order
    simp
  have hupd : ∀ s2 : Store,
      (update_menu_item s2 i n p).1.orders = s2.orders := by
    intro s2
    unfold update_menu_item
    split <;> rfl
  refine ⟨hmem, hupd, fun s2 => rfl, ?_⟩
  unfold get_orders
  rw [hupd]
  refine mem_sortDesc.mpr (List.mem_filter.mpr ⟨hmem, ?_⟩)
  simp [idCond_self, statusCond, itemsCond]

/-- C8: get_new_section_id returns 1 for a table with no rows, and the
maximal existing section id of the table plus one otherwise; the result
never collides with a section id present for that table. -/
theorem C8_next_section_id (s : Store) (t : Nat) :
    (s.orders.filter (fun o => o.table_id == t) = [] →
        get_new_section_id s t = 1)
    ∧ (∀ r ∈ s.orders, r.table_id = t →
        r.section_id < get_new_section_id s t)
    ∧ (s.orders.filter (fun o => o.table_id == t) ≠ [] →
        ∃ r ∈ s.orders, r.table_id = t
          ∧ get_new_section_id s t = r.section_id + 1)
    ∧ (∀ r ∈ s.orders, r.table_id = t →
        r.section_id ≠ get_new_section_id s t) := by
  have hlt : ∀ r ∈ s.orders, r.table_id = t →
      r.section_id < get_new_section_id s t := by
    intro r hr hrt
    unfold get_new_section_id
    have hm : r.section_id ∈ (s.orders.filter
        (fun o => o.table_id == t)).map (fun o => o.section_id) :=
      List.mem_map_of_mem _ (List.mem_filter.mpr ⟨hr, by simp [hrt]⟩)
    exact Nat.lt_succ_of_le (le_foldr_max hm)
  refine ⟨?_, hlt, ?_, ?_⟩
  · intro h
    unfold get_new_section_id
    rw [h]
    rfl
  · intro h
    have hmap : ((s.orders.filter (fun o => o.table_id == t)).map
        (fun o => o.section_id)) ≠ [] := by
      intro hc
      apply h
      simpa using hc
    rcases List.mem_map.mp (foldr_max_mem hmap) with ⟨r, hrf, hre⟩
    have hrm := List.mem_filter.mp hrf
    refine ⟨r, hrm.1, by simpa using hrm.2, ?_⟩
    unfold get_new_section_id
    rw [hre]
  · intro r hr hrt
    exact Nat.ne_of_lt (hlt r hr hrt)

/-- C8 witness: a fresh table yields 1; a table with section ids 1 and 3
yields an id that is one more than an existing maximal section id. -/
theorem C8_witness :
    get_new_section_id emptyStore 2 = 1
    ∧ (∃ r ∈ c8Store.orders, r.table_id = 2
        ∧ get_new_section_id c8Store 2 = r.section_id + 1) :=
  ⟨(C8_next_section_id emptyStore 2).1 (by decide),
   (C8_next_section_id c8Store 2).2.2.1 (by decide)⟩

/-! ### Further helper lemmas -/

theorem idCond_ne {n : Nat} (h : n ≠ 0) (v : Nat) :
    idCond (some n) v = (v == n) := by
  show (if (n == 0) = true then true else (v == n)) = (v == n)
  rw [if_neg (by simp [h])]

theorem update_qty_not_found (s : Store) (oid : Nat) (c : Int)
    (hfind : s.orders.find? (fun o => o.id == oid) = none) :
    update_qty s oid c = s := by
  unfold update_qty
  rw [hfind]

theorem update_qty_found (s : Store) (oid : Nat) (c : Int) (row : Order)
    (hfind : s.orders.find? (fun o => o.id == oid) = some row) :
    update_qty s oid c =
      if row.qty + c ≤ 0 then
        { s with orders := s.orders.filter (fun o => !(o.id == oid)) }
      else
        { s with orders := s.orders.map (fun o =>
            if o.id == oid then { o with qty := row.qty + c } else o) } := by
  unfold update_qty
  rw [hfind]

theorem filter_idem {α : Type} (p : α → Bool) (l : List α) :
    (l.filter p).filter p = l.filter p := by
  rw [List.filter_filter]
  apply List.filter_congr
  intro a _
  exact Bool.and_self _

theorem mem_tableOrders {s : Store} {t : Nat} {o : Order} :
    o ∈ tableOrders s t → o ∈ s.orders := by
  intro h
  exact (List.mem_filter.mp (mem_sortDesc.mp h)).1

theorem mem_sectionRows {s : Store} {t sec : Nat} {o : Order} :
    o ∈ sectionRows s t sec → o ∈ s.orders := by
  intro h
  exact mem_tableOrders (List.mem_filter.mp h).1

/-- C1 counterexample: add_order performs no quantity validation, so
calling it with qty=0 inserts a row whose quantity is 0; the claimed
invariant holds before the call and is violated after it. -/
theorem C1_counterexample :
    QtyInv emptyStore
    ∧ ¬ QtyInv (add_order emptyStore 1 1 "Dosa" 0 false 0) :=
  ⟨by decide, by decide⟩

/-- C1 amended: every public operation preserves the invariant qty ≥ 1
provided add_order itself is invoked with qty ≥ 1 (the function performs
no validation of its own); update_qty on an existing row deletes the row
when the resulting quantity is ≤ 0 and updates it in place when the
result is ≥ 1. -/
theorem C1_qty_invariant (s : Store) (hs : QtyInv s) :
    (∀ t sec it q pcl now, 1 ≤ q →
        QtyInv (add_order s t sec it q pcl now))
    ∧ (∀ oid c, QtyInv (update_qty s oid c))
    ∧ (∀ oid st, QtyInv (update_status s oid st))
    ∧ (∀ oid, QtyInv (toggle_parcel_status s oid))
    ∧ (∀ oid, QtyInv (delete_order s oid))
    ∧ (∀ t sec, QtyInv (delete_section s t sec).1)
    ∧ (∀ oid c r, s.orders.find? (fun o => o.id == oid) = some r →
        (r.qty + c ≤ 0 →
            ∀ o ∈ (update_qty s oid c).orders, o.id ≠ oid)
        ∧ (1 ≤ r.qty + c →
            ({ r with qty := r.qty + c }) ∈ (update_qty s oid c).orders)) := by
  refine ⟨?_, ?_, ?_, ?_, ?_, ?_, ?_⟩
  · intro t sec it q pcl now hq o ho
    rcases List.mem_append.mp ho with h | h
    · exact hs o h
    · rcases List.mem_singleton.mp h with rfl
      exact hq
  · intro oid c o ho
    cases hfind : s.orders.find? (fun o => o.id == oid) with
    | none =>
      rw [update_qty_not_found s oid c hfind] at ho
      exact hs o ho
    | some row =>
      rw [update_qty_found s oid c row hfind] at ho
      by_cases hle : row.qty + c ≤ 0
      · rw [if_pos hle] at ho
        exact hs o (List.mem_filter.mp ho).1
      · rw [if_neg hle] at ho
        rcases List.mem_map.mp ho with ⟨a, ha, rfl⟩
        by_cases hid : (a.id == oid) = true
        · rw [if_pos hid]
          show (1 : Int) ≤ row.qty + c
          omega
        · rw [if_neg hid]
          exact hs a ha
  · intro oid st o ho
    rcases List.mem_map.mp ho with ⟨a, ha, rfl⟩
    by_cases hid : (a.id == oid) = true
    · rw [if_pos hid]
      exact hs a ha
    · rw [if_neg hid]
      exact hs a ha
  · intro oid o ho
    rcases List.mem_map.mp ho with ⟨a, ha, rfl⟩
    by_cases hid : (a.id == oid) = true
    · rw [if_pos hid]
      exact hs a ha
    · rw [if_neg hid]
      exact hs a ha
  · intro oid o ho
    exact hs o (List.mem_filter.mp ho).1
  · intro t sec o ho
    exact hs o (List.mem_filter.mp ho).1
  · intro oid c r hfind
    constructor
    · intro hle o ho
      rw [update_qty_found s oid c r hfind, if_pos hle] at ho
      have h2 := (List.mem_filter.mp ho).2
      simpa using h2
    · intro hge
      rw [update_qty_found s oid c r hfind,
        if_neg (by omega : ¬(r.qty + c ≤ 0))]
      have hrmem := List.mem_of_find?_eq_some hfind
      have hp := List.find?_some hfind
      have heq : (fun o => if o.id == oid then { o with qty := r.qty + c }
          else o) r = { r with qty := r.qty + c } := by
        simp [hp]
      exact heq ▸ List.mem_map_of_mem _ hrmem

/-- C1 witness: on a store holding one row of quantity 3, a delta of -5
removes the row (no non-positive quantity is ever stored) and a delta of
-1 updates it in place to quantity 2. -/
theorem C1_witness :
    QtyInv (update_qty w1Store 1 (-5))
    ∧ (∀ o ∈ (update_qty w1Store 1 (-5)).orders, o.id ≠ 1)
    ∧ ((⟨1, 1, 1, "Dosa", 2, "Preparing", 0, some 40, false⟩ : Order)
        ∈ (update_qty w1Store 1 (-1)).orders) :=
  ⟨(C1_qty_invariant w1Store (by decide)).2.1 1 (-5),
   ((C1_qty_invariant w1Store (by decide)).2.2.2.2.2.2 1 (-5)
      ⟨1, 1, 1, "Dosa", 3, "Preparing", 0, some 40, false⟩ (by decide)).1
      (by decide),
   ((C1_qty_invariant w1Store (by decide)).2.2.2.2.2.2 1 (-1)
      ⟨1, 1, 1, "Dosa", 3, "Preparing", 0, some 40, false⟩ (by decide)).2
      (by decide)⟩

/-- C6 counterexample: delete_section does not return the number of rows
deleted: on a store where exactly one row matches, the Python function
returns None; moreover, after delete_section(0, 1) a get_orders(0, 1)
call is not empty, because a zero table id disables the filter. -/
theorem C6_counterexample :
    (c6Store.orders.filter
        (fun o => o.table_id == 1 && o.section_id == 1)).length = 1
    ∧ (delete_section c6Store 1 1).2 = none
    ∧ (delete_section c6Store 1 1).2 ≠ some 1
    ∧ get_orders (delete_section c6bStore 0 1).1 (some 0) (some 1)
        StatusFilter.noFilter none ≠ [] :=
  ⟨by decide, rfl, by decide, by decide⟩

/-- C6 amended: delete_section removes exactly the rows matching both
keys and returns None rather than a count; for a genuine (nonzero) table
and section id, get_orders on the same keys immediately afterwards is
empty; repeating the call on the same keys changes nothing and raises no
error, and the menu is untouched. -/
theorem C6_delete_section (s : Store) (t sec : Nat)
    (ht : t ≠ 0) (hsec : sec ≠ 0) :
    ((delete_section s t sec).1.orders
        = s.orders.filter
            (fun o => !(o.table_id == t && o.section_id == sec)))
    ∧ (∀ o ∈ (delete_section s t sec).1.orders,
        ¬(o.table_id = t ∧ o.section_id = sec))
    ∧ get_orders (delete_section s t sec).1 (some t) (some sec)
        StatusFilter.noFilter none = []
    ∧ delete_section (delete_section s t sec).1 t sec
        = delete_section s t sec
    ∧ (delete_section s t sec).2 = none
    ∧ (delete_section s t sec).1.menu = s.menu := by
  refine ⟨rfl, ?_, ?_, ?_, rfl, rfl⟩
  · intro o ho hc
    have h2 := (List.mem_filter.mp ho).2
    simp [hc.1, hc.2] at h2
  · unfold get_orders
    have hnil : (delete_section s t sec).1.orders.filter (fun o =>
        idCond (some t) o.table_id && idCond (some sec) o.section_id &&
        statusCond StatusFilter.noFilter o.status &&
        itemsCond none o.item) = [] := by
      rw [List.filter_eq_nil_iff]
      intro a ha hc
      have h2 := (List.mem_filter.mp ha).2
      rw [idCond_ne ht, idCond_ne hsec] at hc
      simp [statusCond, itemsCond] at hc
      simp [hc.1, hc.2] at h2
    rw [hnil]
    rfl
  · unfold delete_section
    rw [Prod.mk.injEq]
    refine ⟨?_, rfl⟩
    congr 1
    exact filter_idem _ _

/-- C6 witness: deleting the one matching section empties the follow-up
query and a second call is a no-op. -/
theorem C6_witness :
    get_orders (delete_section c6Store 1 1).1 (some 1) (some 1)
        StatusFilter.noFilter none = []
    ∧ delete_section (delete_section c6Store 1 1).1 1 1
        = delete_section c6Store 1 1 :=
  ⟨(C6_delete_section c6Store 1 1 (by decide) (by decide)).2.2.1,
   (C6_delete_section c6Store 1 1 (by decide) (by decide)).2.2.2.1⟩

/-- C5 counterexample: the startup seed runs whenever the catalog is
empty; after the administrator deletes all nine items, the next startup
re-inserts the full seed, so the seed is not inserted at most once over
the lifetime of the system. -/
theorem C5_counterexample :
    c5Seeded.menu.map (fun m => m.name) = MIGRATION_MENU_ITEMS
    ∧ c5Deleted.menu = []
    ∧ migrate c5Deleted ≠ c5Deleted
    ∧ (migrate c5Deleted).menu.map (fun m => m.name)
        = MIGRATION_MENU_ITEMS :=
  ⟨by decide, by decide, by decide, by decide⟩

set_option maxHeartbeats 2000000 in
/-- C5 amended: at startup the seed runs exactly when the catalog is
empty: a non-empty catalog is left untouched, and an empty one — whether
fresh or emptied by deleting every item — receives the nine seed
name/price pairs; orders are never touched. -/
theorem C5_seed_on_empty (s : Store) :
    (s.menu ≠ [] → migrate s = s)
    ∧ (s.menu = [] →
        (migrate s).menu.map (fun m => (m.name, m.price))
          = MIGRATION_MENU_ITEMS.map
              (fun nm => (nm, MIGRATION_MENU_PRICES nm))
        ∧ (migrate s).orders = s.orders) := by
  obtain ⟨menu, ords, oseq, mseq⟩ := s
  constructor
  · intro h
    cases menu with
    | nil => exact absurd rfl h
    | cons a l => rfl
  · intro h
    subst h
    exact ⟨rfl, rfl⟩

/-- C5 witness: a fresh database is seeded on first run, and a catalog
already holding an item is left untouched. -/
theorem C5_witness :
    (migrate emptyStore).menu.map (fun m => (m.name, m.price))
      = MIGRATION_MENU_ITEMS.map (fun nm => (nm, MIGRATION_MENU_PRICES nm))
    ∧ migrate dosaStore = dosaStore :=
  ⟨((C5_seed_on_empty emptyStore).2 rfl).1,
   (C5_seed_on_empty dosaStore).1 (by decide)⟩

/-- C4: the subtotal the Waiter view shows for a section equals the sum
of qty times the stored snapshot price over exactly the store rows of
that table and section (the live catalog is not consulted when every row
carries its snapshot, which every API-created row does); the per-section
sum inside the grand-total loop agrees with the displayed subtotal, and
the grand total is the sum of the per-section subtotals. -/
theorem C4_totals (s : Store) (t : Nat)
    (hp : ∀ o ∈ s.orders, o.price ≠ none) (ht : t ≠ 0) :
    (∀ sec, section_total_display s t sec
        = ((sectionRows s t sec).map
            (fun o => (o.qty : Rat) * o.price.getD 0)).sum)
    ∧ (∀ sec, section_total_display s t sec
        = ((s.orders.filter
            (fun o => o.table_id == t && o.section_id == sec)).map
            (fun o => (o.qty : Rat) * o.price.getD 0)).sum)
    ∧ (∀ sec, section_total_sum s t sec = section_total_display s t sec)
    ∧ grand_total s t
        = ((sectionIdsOfTable s t).map
            (fun sec => section_total_display s t sec)).sum := by
  have hdisp : ∀ sec, section_total_display s t sec
      = ((sectionRows s t sec).map
          (fun o => (o.qty : Rat) * o.price.getD 0)).sum := by
    intro sec
    unfold section_total_display
    rw [foldl_add_map (fun o => (o.qty : Rat) * display_price s o), zero_add]
    apply congrArg List.sum
    apply List.map_congr_left
    intro o ho
    cases hop : o.price with
    | none => exact absurd hop (hp o (mem_sectionRows ho))
    | some p => simp [display_price, hop]
  have hperm : ∀ sec, List.Perm (sectionRows s t sec)
      (s.orders.filter
        (fun o => o.table_id == t && o.section_id == sec)) := by
    intro sec
    have h1 : List.Perm (sectionRows s t sec)
        ((s.orders.filter (fun o =>
            idCond (some t) o.table_id && idCond none o.section_id &&
            statusCond StatusFilter.noFilter o.status &&
            itemsCond none o.item)).filter
          (fun o => o.section_id == sec)) :=
      (sortDesc_perm _).filter _
    have h2 : ((s.orders.filter (fun o =>
        idCond (some t) o.table_id && idCond none o.section_id &&
        statusCond StatusFilter.noFilter o.status &&
        itemsCond none o.item)).filter (fun o => o.section_id == sec))
        = s.orders.filter
            (fun o => o.table_id == t && o.section_id == sec) := by
      rw [List.filter_filter]
      apply List.filter_congr
      intro a _
      rw [idCond_ne ht]
      cases a.table_id == t <;> cases a.section_id == sec <;> rfl
    exact h2 ▸ h1
  have hsec : ∀ sec, section_total_sum s t sec
      = section_total_display s t sec := by
    intro sec
    unfold section_total_sum
    have hall : (sectionRows s t sec).filter (fun o => o.price.isSome)
        = sectionRows s t sec :=
      List.filter_eq_self.mpr (fun a ha => by
        cases hop : a.price with
        | none => exact absurd hop (hp a (mem_sectionRows ha))
        | some p => simp [hop])
    rw [hall,
      foldl_add_map (fun o : Order => o.price.getD 0 * (o.qty : Rat)),
      zero_add, hdisp sec]
    apply congrArg List.sum
    apply List.map_congr_left
    intro o ho
    exact mul_comm _ _
  refine ⟨hdisp, ?_, hsec, ?_⟩
  · intro sec
    rw [hdisp sec]
    exact ((hperm sec).map _).sum_eq
  · unfold grand_total
    rw [foldl_add_map (fun sec => section_total_sum s t sec), zero_add]
    apply congrArg List.sum
    apply List.map_congr_left
    intro sec _
    exact hsec sec

/-- C4 witness: in the spec scenario (table 3: section 1 holds 2 Dosa at
40 and 1 Chaya at 10, section 2 holds 1 Idly at 30) the section-1
subtotal is 90 and the grand total 120 equals the sum of the
subtotals. -/
theorem C4_witness :
    grand_total c4Store 3
      = ((sectionIdsOfTable c4Store 3).map
          (fun sec => section_total_display c4Store 3 sec)).sum
    ∧ section_total_display c4Store 3 1 = 90
    ∧ grand_total c4Store 3 = 120 :=
  ⟨(C4_totals c4Store 3 (by decide) (by decide)).2.2.2,
   by
    simp [section_total_display, sectionRows, tableOrders, get_orders,
      sortDesc, insertDesc, c4Store, display_price, idCond, statusCond,
      itemsCond, List.foldl]
    norm_num,
   by
    simp [grand_total, sectionIdsOfTable, sortAsc, insertAsc,
      section_total_sum, sectionRows, tableOrders, get_orders, sortDesc,
      insertDesc, c4Store, idCond, statusCond, itemsCond, List.foldl,
      List.dedup, List.pwFilter]
    norm_num⟩

/-- The price-snapshot hypothesis of C4_totals is an invariant of the
API: every store operation keeps every row price present. -/
theorem priceSet_preserved (s : Store) (hs : PriceSet s) :
    (∀ t sec it q pcl now, PriceSet (add_order s t sec it q pcl now))
    ∧ (∀ oid c, PriceSet (update_qty s oid c))
    ∧ (∀ oid st, PriceSet (update_status s oid st))
    ∧ (∀ oid, PriceSet (toggle_parcel_status s oid))
    ∧ (∀ oid, PriceSet (delete_order s oid))
    ∧ (∀ t sec, PriceSet (delete_section s t sec).1) := by
  refine ⟨?_, ?_, ?_, ?_, ?_, ?_⟩
  · intro t sec it q pcl now o ho
    rcases List.mem_append.mp ho with h | h
    · exact hs o h
    · rcases List.mem_singleton.mp h with rfl
      simp
  · intro oid c o ho
    cases hfind : s.orders.find? (fun o => o.id == oid) with
    | none =>
      rw [update_qty_not_found s oid c hfind] at ho
      exact hs o ho
    | some row =>
      rw [update_qty_found s oid c row hfind] at ho
      by_cases hle : row.qty + c ≤ 0
      · rw [if_pos hle] at ho
        exact hs o (List.mem_filter.mp ho).1
      · rw [if_neg hle] at ho
        rcases List.mem_map.mp ho with ⟨a, ha, rfl⟩
        by_cases hid : (a.id == oid) = true
        · rw [if_pos hid]
          exact hs a ha
        · rw [if_neg hid]
          exact hs a ha
  · intro oid st o ho
    rcases List.mem_map.mp ho with ⟨a, ha, rfl⟩
    by_cases hid : (a.id == oid) = true
    · rw [if_pos hid]
      exact hs a ha
    · rw [if_neg hid]
      exact hs a ha
  · intro oid o ho
    rcases List.mem_map.mp ho with ⟨a, ha, rfl⟩
    by_cases hid : (a.id == oid) = true
    · rw [if_pos hid]
      exact hs a ha
    · rw [if_neg hid]
      exact hs a ha
  · intro oid o ho
    exact hs o (List.mem_filter.mp ho).1
  · intro t sec o ho
    exact hs o (List.mem_filter.mp ho).1
